import Mathlib

/-!
Verification of the bxmedia-radio gateway (Go, `main.go`): a shallow
embedding of the station directory model, the station resolver, the
content-type negotiation, the buffered copy task of the stream proxy,
and the request handlers, together with theorems about the spec claims.

External effects (directory fetch, upstream connect, the race between
the copy task's channels and the client's cancellation) are modelled as
explicit inputs to the handler functions; metric side effects are
modelled as an ordered trace of metric events.
-/

namespace BxRadio

/-- `RadioStation` struct: `{ID int; Name string; URL string}` (JSON tags
`id`, `name`, `url`). -/
structure RadioStation where
  ID : Int
  Name : String
  URL : String
  deriving DecidableEq, Repr

/-- Models Go `strings.EqualFold` restricted to ASCII simple case
folding: the two strings are equal after mapping every ASCII letter to
lower case (`Char.toLower` folds exactly the ASCII range). -/
def EqualFold (s t : String) : Bool :=
  s.toList.map Char.toLower == t.toList.map Char.toLower

/-- The resolution loop of `streamStationHandler` (lines 161-169):
walk the fetched station list in order, return the first station whose
`Name` compares equal to the query under `strings.EqualFold`, and stop
there (`break`); `none` models `found == false`. -/
def resolveStation : List RadioStation → String → Option RadioStation
  | [], _ => none
  | s :: rest, name =>
    if EqualFold s.Name name then some s else resolveStation rest name

/-- An upstream HTTP response, for header inspection: `header n` models
`resp.Header.Get(n)`, which returns `""` when the header is absent. -/
structure HttpResponse where
  header : String → String

/-- `startsWith needle hay`: `needle` is a prefix of `hay` (character
lists). -/
def startsWith : List Char → List Char → Bool
  | [], _ => true
  | _ :: _, [] => false
  | a :: as, b :: bs => a == b && startsWith as bs

/-- `needle` occurs as a contiguous substring of `hay`. -/
def substrAt (needle : List Char) : List Char → Bool
  | [] => needle.isEmpty
  | c :: rest => startsWith needle (c :: rest) || substrAt needle rest

/-- Models Go `strings.Contains s substr`. -/
def containsStr (s substr : String) : Bool :=
  substrAt substr.toList s.toList

/-- The fixed list of audio MIME strings of `getContentType`
(lines 265-270). -/
def audioContentTypes : List String :=
  ["audio/aac", "audio/mpeg", "audio/ogg", "audio/wav"]

/-- `getContentType` (lines 261-279): return the upstream
`Content-Type` header if non-empty; otherwise scan the fixed MIME list
and return the first entry contained in the `icy-br` header value;
otherwise the default `application/octet-stream`. -/
def getContentType (resp : HttpResponse) : String :=
  let contentType := resp.header "Content-Type"
  if contentType = "" then
    match audioContentTypes.find? (fun ct => containsStr (resp.header "icy-br") ct) with
    | some ct => ct
    | none => "application/octet-stream"
  else
    contentType

/-! ## The buffered writer and the copy task

`bufio.NewWriterSize(c.Writer, 32*1024)` and the copy loop of the
goroutine (lines 213-228). The underlying client writer is modelled as
an append-only byte sink (`out`); bytes are `Nat` (values of Go `byte`).
-/

/-- State of a `bufio.Writer` over an append-only sink: `size` is the
buffer capacity, `buf` the currently buffered bytes, `out` the bytes
already written to the underlying writer. -/
structure BufWriter where
  size : Nat
  buf : List Nat
  out : List Nat
  deriving DecidableEq, Repr

/-- `bufio.NewWriterSize(w, size)`: empty buffer, nothing written. -/
def BufWriter.new (size : Nat) : BufWriter :=
  { size := size, buf := [], out := [] }

/-- `(*bufio.Writer).Flush`: move all buffered bytes to the sink. -/
def BufWriter.flushW (w : BufWriter) : BufWriter :=
  { w with buf := [], out := w.out ++ w.buf }

/-- `(*bufio.Writer).Write w p`, with an error-free sink: while `p` does
not fit in the available space, either write `p` directly to the sink
(empty buffer: Go's large-write fast path) or top up the buffer to
capacity and flush; finally copy what remains of `p` into the buffer. -/
def BufWriter.write (w : BufWriter) (p : List Nat) : BufWriter :=
  if w.size - w.buf.length < p.length then
    if w.buf.length = 0 then
      { w with out := w.out ++ p }
    else
      let n := w.size - w.buf.length
      let w' := BufWriter.flushW { w with buf := w.buf ++ p.take n }
      BufWriter.write w' (p.drop n)
  else
    { w with buf := w.buf ++ p }
termination_by 2 * p.length + (if w.buf.length = 0 then 0 else 1)
decreasing_by
  have hb : ¬w.buf.length = 0 := by assumption
  simp [BufWriter.flushW, hb]
  omega

/-- One run of the upstream body as the copy loop observes it: the
chunks that `io.Copy`'s reads deliver, in order, followed either by EOF
(`copyErr = none`) or by the first I/O failure (`copyErr = some e`),
after which the copy stops. -/
structure CopySource where
  chunks : List (List Nat)
  copyErr : Option String
  deriving DecidableEq, Repr

/-- Observable outcome of one run of the copy goroutine
(lines 213-228). -/
structure CopyTaskResult where
  /-- Bytes delivered to the underlying client writer when the task has
  exited. -/
  written : List Nat
  /-- The `done` channel has been closed. -/
  doneClosed : Bool
  /-- The value sent on `errChan`, if any. -/
  errSent : Option String
  /-- `buffWriter.Flush()` was executed after the copy. -/
  flushed : Bool
  deriving DecidableEq, Repr

/-- The copy goroutine (lines 213-228): build a 32 KiB buffered writer
over the client writer, run `io.Copy` from the upstream body (write
each delivered chunk in order); on an I/O error send it on `errChan`
and return, otherwise flush the remaining buffer. `close(done)` is
deferred, so it runs on both exits. -/
def runCopyTask (src : CopySource) : CopyTaskResult :=
  let w := src.chunks.foldl BufWriter.write (BufWriter.new (32 * 1024))
  match src.copyErr with
  | some e =>
      { written := w.out, doneClosed := true, errSent := some e, flushed := false }
  | none =>
      { written := w.flushW.out, doneClosed := true, errSent := none, flushed := true }

/-! ## Request handlers

`streamStationHandler` and `getStationsHandler` (lines 117-242). The
outcomes of the external calls (directory fetch, `http.NewRequest`,
`http.DefaultClient.Do`, and the `select` race of lines 231-240) are
inputs; the Prometheus operations are recorded as an ordered event
trace, together with the directory fetch itself so that the order of
the counter increment relative to the fetch is observable. -/

/-- One observable step of a handler run, in execution order. -/
inductive MetricEvent where
  /-- `stationRequests.WithLabelValues(label).Inc()` -/
  | stationReqInc (label : String)
  /-- the `http.Get(config.APIEndpoint)` directory fetch is issued -/
  | dirFetch
  /-- `streamErrors.Inc()` -/
  | streamErrInc
  /-- `activeStreams.Inc()` -/
  | gaugeInc
  /-- `activeStreams.Dec()` -/
  | gaugeDec
  deriving DecidableEq, Repr

/-- Outcome of fetching and decoding the station directory
(`http.Get` + `json.Decode`). -/
inductive FetchOutcome where
  /-- `http.Get` returned an error. -/
  | fetchError
  /-- the JSON decode of the body returned an error. -/
  | parseError
  /-- the decoded station list. -/
  | ok (stations : List RadioStation)
  deriving DecidableEq, Repr

/-- Outcome of building and executing the upstream stream request. -/
inductive ConnectOutcome where
  /-- `http.NewRequest("GET", targetStation.URL, nil)` returned an
  error (the station URL does not parse). -/
  | requestError
  /-- `http.DefaultClient.Do(req)` returned an error. -/
  | connectError
  /-- the upstream response, and the body as the copy task will
  observe it. -/
  | ok (resp : HttpResponse) (src : CopySource)

/-- Which case of the `select` of lines 231-240 fires first. -/
inductive RaceOutcome where
  /-- `err := <-errChan` -/
  | copyError (e : String)
  /-- `<-c.Done()` -/
  | clientCancel
  /-- `<-done` -/
  | complete
  deriving DecidableEq, Repr

/-- The external world of one `GET /stream/:station` request:
`stationName` is `c.Param("station")` (the raw client-supplied path
segment). -/
structure StreamEnv where
  stationName : String
  fetch : FetchOutcome
  connect : ConnectOutcome
  race : RaceOutcome

/-- An environment is well formed when the error case of the `select`
can only have been chosen if the copy task really sent that error on
`errChan` (a receive from the buffered channel only proceeds after the
send). -/
def StreamEnv.WF (env : StreamEnv) : Prop :=
  ∀ e, env.race = RaceOutcome.copyError e →
    ∃ resp src, env.connect = ConnectOutcome.ok resp src ∧ src.copyErr = some e

/-- How a streaming response (headers already sent, body being relayed)
ends. -/
inductive StreamEnd where
  /-- the `<-done` case: log "Stream completed", return normally. -/
  | completed
  /-- the `<-c.Done()` case: log "Stream cancelled by client",
  return. -/
  | cancelled
  /-- the `errChan` case: `c.AbortWithStatus(500)`. -/
  | abortedError
  deriving DecidableEq, Repr

/-- The response of one `GET /stream/:station` request. -/
inductive Response where
  /-- `c.JSON(status, fields)` sent before any streaming. -/
  | json (status : Nat) (fields : List (String × String))
  /-- streaming began with the given response headers and ended as
  `tail` says. -/
  | stream (headers : List (String × String)) (tail : StreamEnd)
  deriving DecidableEq, Repr

/-- `streamStationHandler` (lines 141-242): increment the per-station
request counter, fetch and decode the directory, resolve the station
name, build and execute the upstream request (incrementing the error
counter on either failure), then set the negotiated headers, increment
the active-stream gauge (its decrement is deferred) and wait on the
three-way race, incrementing the error counter and aborting with 500
when the error case fires. -/
def streamStationHandler (env : StreamEnv) : List MetricEvent × Response :=
  let e0 := [MetricEvent.stationReqInc env.stationName, MetricEvent.dirFetch]
  match env.fetch with
  | FetchOutcome.fetchError =>
      (e0, Response.json 500 [("error", "Failed to fetch stations")])
  | FetchOutcome.parseError =>
      (e0, Response.json 500 [("error", "Failed to parse stations")])
  | FetchOutcome.ok stations =>
    match resolveStation stations env.stationName with
    | none =>
        (e0, Response.json 404 [("error", "Station not found")])
    | some _targetStation =>
      match env.connect with
      | ConnectOutcome.requestError =>
          (e0 ++ [MetricEvent.streamErrInc],
           Response.json 500 [("error", "Failed to create stream request")])
      | ConnectOutcome.connectError =>
          (e0 ++ [MetricEvent.streamErrInc],
           Response.json 500 [("error", "Failed to connect to stream")])
      | ConnectOutcome.ok resp _src =>
        let headers :=
          [("Content-Type", getContentType resp), ("Transfer-Encoding", "chunked")]
        match env.race with
        | RaceOutcome.copyError _e =>
            (e0 ++ [MetricEvent.gaugeInc, MetricEvent.streamErrInc, MetricEvent.gaugeDec],
             Response.stream headers StreamEnd.abortedError)
        | RaceOutcome.clientCancel =>
            (e0 ++ [MetricEvent.gaugeInc, MetricEvent.gaugeDec],
             Response.stream headers StreamEnd.cancelled)
        | RaceOutcome.complete =>
            (e0 ++ [MetricEvent.gaugeInc, MetricEvent.gaugeDec],
             Response.stream headers StreamEnd.completed)

/-- Number of `activeStreams.Inc()` events in a trace. -/
def countGaugeInc : List MetricEvent → Nat
  | [] => 0
  | MetricEvent.gaugeInc :: t => countGaugeInc t + 1
  | _ :: t => countGaugeInc t

/-- Number of `activeStreams.Dec()` events in a trace. -/
def countGaugeDec : List MetricEvent → Nat
  | [] => 0
  | MetricEvent.gaugeDec :: t => countGaugeDec t + 1
  | _ :: t => countGaugeDec t

/-- Number of `streamErrors.Inc()` events in a trace. -/
def countStreamErr : List MetricEvent → Nat
  | [] => 0
  | MetricEvent.streamErrInc :: t => countStreamErr t + 1
  | _ :: t => countStreamErr t

/-- Number of `stationRequests.WithLabelValues(label).Inc()` events for
a given label in a trace. -/
def countStationReq (label : String) : List MetricEvent → Nat
  | [] => 0
  | MetricEvent.stationReqInc l :: t =>
      (if l = label then 1 else 0) + countStationReq label t
  | _ :: t => countStationReq label t

/-! ## Station listing handler -/

/-- The response of one `GET /stations` request. -/
inductive StationsResponse where
  /-- `c.JSON(status, gin.H\x7b"error": msg\x7d)` -/
  | error (status : Nat) (msg : String)
  /-- `c.JSON(200, response)` where `response` is the projected slice of
  `StationResponse{Name}` values, in fetch order. -/
  | okList (names : List String)
  deriving DecidableEq, Repr

/-- `getStationsHandler` (lines 117-139): fetch and decode the
directory, then project every station to its `Name` (the
`StationResponse` slice) and send it with status 200. -/
def getStationsHandler (fetch : FetchOutcome) : StationsResponse :=
  match fetch with
  | FetchOutcome.fetchError => StationsResponse.error 500 "Failed to fetch stations"
  | FetchOutcome.parseError => StationsResponse.error 500 "Failed to parse stations"
  | FetchOutcome.ok stations =>
      StationsResponse.okList (stations.map (fun s => s.Name))

/-- JSON rendering of the `StationResponse` slice as `encoding/json`
marshals it: the slice is built with `var response []StationResponse`
and grows only by `append`, so with zero stations it stays the nil
slice, which marshals to `null`; otherwise it is an array of
one-field objects. -/
def renderStationList (names : List String) : String :=
  match names with
  | [] => "null"
  | _ =>
      "[" ++ String.intercalate ","
        (names.map (fun n => "\x7b\"name\":\"" ++ n ++ "\"\x7d")) ++ "]"

/-- JSON rendering of a `gin.H` object of string fields, as
`encoding/json` marshals it. -/
def renderJson (fields : List (String × String)) : String :=
  "\x7b" ++ String.intercalate ","
    (fields.map (fun f => "\"" ++ f.1 ++ "\":\"" ++ f.2 ++ "\"")) ++ "\x7d"

/-- The request reaches the `Streaming` state: the directory fetch and
decode succeeded, the name resolved, and the upstream connect
succeeded (the code path of lines 206-240). -/
def StreamEnv.streaming (env : StreamEnv) : Bool :=
  match env.fetch with
  | FetchOutcome.ok stations =>
    match resolveStation stations env.stationName with
    | some _ =>
      match env.connect with
      | ConnectOutcome.ok _ _ => true
      | _ => false
    | none => false
  | _ => false

/-! ## Buffered-writer lemmas -/

/-- A buffered write preserves the total content: sink contents
followed by buffered contents grow exactly by the written bytes. -/
theorem BufWriter.write_content (w : BufWriter) (p : List Nat) :
    (w.write p).out ++ (w.write p).buf = w.out ++ w.buf ++ p := by
  induction w, p using BufWriter.write.induct with
  | case1 w p hlt hz =>
    have hb : w.buf = [] := List.eq_nil_of_length_eq_zero hz
    rw [BufWriter.write]
    simp only [hb]
    split <;> simp [hb]
  | case2 w p hlt hz n w' ih =>
    rw [BufWriter.write]
    simp only [if_pos hlt, if_neg hz]
    rw [ih]
    simp [w', BufWriter.flushW, n]
  | case3 w p hge =>
    rw [BufWriter.write]
    simp [hge]

/-- Folding buffered writes of a chunk list preserves the total
content. -/
theorem BufWriter.foldl_write_content (chunks : List (List Nat)) (w : BufWriter) :
    (chunks.foldl BufWriter.write w).out ++ (chunks.foldl BufWriter.write w).buf =
      w.out ++ w.buf ++ chunks.flatten := by
  induction chunks generalizing w with
  | nil => simp
  | cons c rest ih =>
    simp only [List.foldl_cons, List.flatten_cons, ih (w.write c), BufWriter.write_content]
    simp

/-! ## Resolver lemmas -/

/-- If no station of the list matches the query under `EqualFold`, the
resolution loop ends with `found == false`. -/
theorem resolveStation_eq_none (stations : List RadioStation) (name : String)
    (h : ∀ s ∈ stations, EqualFold s.Name name = false) :
    resolveStation stations name = none := by
  induction stations with
  | nil => rfl
  | cons s rest ih =>
    have hs := h s (by simp)
    simp only [resolveStation, hs, Bool.false_eq_true, if_false]
    exact ih fun t ht => h t (by simp [ht])

/-- `List.find?` returns the head of the suffix at the first satisfying
element: on `pre ++ a :: post` with `p a` true and `p` false on all of
`pre`, the search stops at `a`. -/
theorem find?_first_of_split {α : Type} (p : α → Bool) (pre post : List α) (a : α)
    (ha : p a = true) (hpre : ∀ b ∈ pre, p b = false) :
    (pre ++ a :: post).find? p = some a := by
  induction pre with
  | nil => simp [List.find?_cons, ha]
  | cons b rest ih =>
    have hb := hpre b (by simp)
    simp only [List.cons_append, List.find?_cons, hb]
    exact ih fun c hc => hpre c (by simp [hc])

/-! ## Claim theorems -/

/-- C3: for every upstream body — an arbitrary chunk list, of arbitrary
total length, however the transport splits the reads — when the copy
task runs to normal completion (EOF, no I/O error), the byte sequence
delivered to the client equals the upstream byte sequence exactly and
in order, and the final partial buffer has been flushed. -/
theorem copyTask_byte_exact (chunks : List (List Nat)) :
    (runCopyTask { chunks := chunks, copyErr := none }).written = chunks.flatten ∧
    (runCopyTask { chunks := chunks, copyErr := none }).flushed = true := by
  constructor
  · show (List.foldl BufWriter.write (BufWriter.new (32 * 1024)) chunks).flushW.out = _
    rw [BufWriter.flushW]
    simpa [BufWriter.new] using BufWriter.foldl_write_content chunks (BufWriter.new (32 * 1024))
  · rfl

/-- C2 counterexample: on a copy that fails with an I/O error, the
error signal fires on `errChan` AND the `done` channel is closed (its
`close` is deferred, so it runs on the error exit too) — the two
signals are not mutually exclusive, refuting "exactly one of its two
signals fires". -/
theorem copyTask_signals_not_exclusive :
    (runCopyTask { chunks := [], copyErr := some "connection reset" }).errSent
        = some "connection reset" ∧
    (runCopyTask { chunks := [], copyErr := some "connection reset" }).doneClosed = true := by
  constructor <;> rfl

/-- C2 amended: the error signal fires if and only if an I/O error
occurred, carrying that first error; the buffer flush runs if and only
if no error occurred; and the `done` channel is closed on every exit of
the task (its `close` is deferred), so after an error both signals fire
and the waiting `select` may observe either. -/
theorem copyTask_signals (src : CopySource) :
    (runCopyTask src).errSent = src.copyErr ∧
    ((runCopyTask src).flushed = true ↔ src.copyErr = none) ∧
    (runCopyTask src).doneClosed = true := by
  rcases src with ⟨chunks, err⟩
  cases err <;> simp [runCopyTask]

/-- C4: resolution compares the query against each station's name by
case-insensitive equality in list order and returns the first station
whose name matches; stations after the first match — duplicates
included — are never considered. -/
theorem resolveStation_first_match (pre post : List RadioStation)
    (s : RadioStation) (name : String)
    (hs : EqualFold s.Name name = true)
    (hpre : ∀ t ∈ pre, EqualFold t.Name name = false) :
    resolveStation (pre ++ s :: post) name = some s := by
  induction pre with
  | nil => simp [resolveStation, hs]
  | cons t rest ih =>
    have ht := hpre t (by simp)
    simp only [List.cons_append, resolveStation, ht, Bool.false_eq_true, if_false]
    exact ih fun u hu => hpre u (by simp [hu])

/-- C4 witness: the spec's tie-break example — two stations named "A",
query "a", the first one (url "u1") wins. -/
theorem resolveStation_first_match_witness :
    resolveStation [⟨1, "A", "u1"⟩, ⟨2, "A", "u2"⟩] "a" = some ⟨1, "A", "u1"⟩ :=
  resolveStation_first_match [] [⟨2, "A", "u2"⟩] ⟨1, "A", "u1"⟩ "a"
    (by decide) (by simp)

/-- C5 counterexample: with no upstream `Content-Type` and an `icy-br`
header whose value contains the string "audio/aac", `getContentType`
returns "audio/aac", not the fixed default — the inference branch can
produce a different result, refuting "for every value of the icy-br
header". -/
theorem getContentType_fallback_cx :
    getContentType ⟨fun n => if n = "icy-br" then "audio/aac" else ""⟩ = "audio/aac" ∧
    "audio/aac" ≠ "application/octet-stream" := by
  constructor
  · decide
  · decide

/-- C5 amended: the Content-Type sent to the client equals the upstream
`Content-Type` header verbatim when it is non-empty; otherwise it is
the first entry of the fixed audio MIME list that occurs as a substring
of the `icy-br` header value, and the default `application/octet-stream`
when no entry occurs in it — in particular for every `icy-br` value
that contains none of the four MIME strings (e.g. a numeric bitrate). -/
theorem getContentType_spec (resp : HttpResponse) :
    (resp.header "Content-Type" ≠ "" →
      getContentType resp = resp.header "Content-Type") ∧
    (resp.header "Content-Type" = "" →
      ∀ pre ct post, audioContentTypes = pre ++ ct :: post →
        containsStr (resp.header "icy-br") ct = true →
        (∀ c ∈ pre, containsStr (resp.header "icy-br") c = false) →
        getContentType resp = ct) ∧
    (resp.header "Content-Type" = "" →
      (∀ ct ∈ audioContentTypes, containsStr (resp.header "icy-br") ct = false) →
      getContentType resp = "application/octet-stream") := by
  refine ⟨?_, ?_, ?_⟩
  · intro h
    simp [getContentType, h]
  · intro h pre ct post hsplit hct hpre
    have hfind : audioContentTypes.find?
        (fun c => containsStr (resp.header "icy-br") c) = some ct := by
      rw [hsplit]
      exact find?_first_of_split _ pre post ct hct hpre
    simp [getContentType, h, hfind]
  · intro h hnone
    have : audioContentTypes.find?
        (fun ct => containsStr (resp.header "icy-br") ct) = none :=
      List.find?_eq_none.mpr fun ct hct => by simp [hnone ct hct]
    simp [getContentType, h, this]

/-- C5 witness: a response with `Content-Type: audio/mpeg` keeps it
verbatim; a response with no `Content-Type` and `icy-br: audio/ogg`
gets the first (and only) occurring MIME entry, `audio/ogg`; a
response with no `Content-Type` and `icy-br: 128` falls back to the
default. -/
theorem getContentType_spec_witness :
    getContentType ⟨fun n => if n = "Content-Type" then "audio/mpeg" else ""⟩
        = "audio/mpeg" ∧
    getContentType ⟨fun n => if n = "icy-br" then "audio/ogg" else ""⟩
        = "audio/ogg" ∧
    getContentType ⟨fun n => if n = "icy-br" then "128" else ""⟩
        = "application/octet-stream" :=
  ⟨(getContentType_spec _).1 (by decide),
   (getContentType_spec _).2.1 (by decide)
     ["audio/aac", "audio/mpeg"] "audio/ogg" ["audio/wav"]
     rfl (by decide) (by decide),
   (getContentType_spec _).2.2 (by decide) (by decide)⟩

/-- C1: the active-stream gauge events of one `GET /stream/:station`
request always balance — on every request that reaches the Streaming
state (the gauge is incremented) exactly one matching decrement is
recorded before the handler returns, on each of the three exit paths
(completion, copy error, client cancellation), and a request that
never reaches Streaming records no increment at all. -/
theorem activeStreams_gauge_balanced (env : StreamEnv) :
    countGaugeDec (streamStationHandler env).1 = countGaugeInc (streamStationHandler env).1 ∧
    (env.streaming = true →
      countGaugeInc (streamStationHandler env).1 = 1 ∧
      countGaugeDec (streamStationHandler env).1 = 1) ∧
    (env.streaming = false → countGaugeInc (streamStationHandler env).1 = 0) := by
  rcases env with ⟨name, fetch, connect, race⟩
  cases fetch with
  | fetchError =>
    simp [streamStationHandler, StreamEnv.streaming, countGaugeInc, countGaugeDec]
  | parseError =>
    simp [streamStationHandler, StreamEnv.streaming, countGaugeInc, countGaugeDec]
  | ok stations =>
    rcases h : resolveStation stations name with _ | s
    · simp [streamStationHandler, StreamEnv.streaming, h, countGaugeInc, countGaugeDec]
    · cases connect with
      | requestError =>
        simp [streamStationHandler, StreamEnv.streaming, h, countGaugeInc, countGaugeDec]
      | connectError =>
        simp [streamStationHandler, StreamEnv.streaming, h, countGaugeInc, countGaugeDec]
      | ok resp src =>
        cases race <;>
          simp [streamStationHandler, StreamEnv.streaming, h, countGaugeInc, countGaugeDec]

/-- C1 witness: a request that streams to completion records exactly
one gauge increment and one gauge decrement. -/
theorem activeStreams_gauge_balanced_witness :
    countGaugeInc (streamStationHandler
        ⟨"kexp", FetchOutcome.ok [⟨1, "KEXP", "http://u1"⟩],
         ConnectOutcome.ok ⟨fun _ => ""⟩ ⟨[], none⟩, RaceOutcome.complete⟩).1 = 1 ∧
    countGaugeDec (streamStationHandler
        ⟨"kexp", FetchOutcome.ok [⟨1, "KEXP", "http://u1"⟩],
         ConnectOutcome.ok ⟨fun _ => ""⟩ ⟨[], none⟩, RaceOutcome.complete⟩).1 = 1 :=
  (activeStreams_gauge_balanced _).2.1 (by decide)

/-- C6: a `GET /stream/:station` request whose station name has no
case-insensitive match in the fetched directory (the empty directory
included) answers 404 with body `{"error":"Station not found"}` and
records no change of the active-stream gauge. -/
theorem streamHandler_not_found (name : String) (stations : List RadioStation)
    (connect : ConnectOutcome) (race : RaceOutcome)
    (hnomatch : ∀ s ∈ stations, EqualFold s.Name name = false) :
    (streamStationHandler ⟨name, FetchOutcome.ok stations, connect, race⟩).2 =
      Response.json 404 [("error", "Station not found")] ∧
    renderJson [("error", "Station not found")] =
      "\x7b\"error\":\"Station not found\"\x7d" ∧
    countGaugeInc (streamStationHandler
      ⟨name, FetchOutcome.ok stations, connect, race⟩).1 = 0 ∧
    countGaugeDec (streamStationHandler
      ⟨name, FetchOutcome.ok stations, connect, race⟩).1 = 0 := by
  have h := resolveStation_eq_none stations name hnomatch
  refine ⟨?_, rfl, ?_, ?_⟩ <;>
    simp [streamStationHandler, h, countGaugeInc, countGaugeDec]

/-- C6 witness: querying "unknownstation" against a one-station
directory that does not match. -/
theorem streamHandler_not_found_witness :
    (streamStationHandler ⟨"unknownstation",
        FetchOutcome.ok [⟨1, "KEXP", "http://u1"⟩],
        ConnectOutcome.connectError, RaceOutcome.complete⟩).2 =
      Response.json 404 [("error", "Station not found")] ∧
    countGaugeInc (streamStationHandler ⟨"unknownstation",
        FetchOutcome.ok [⟨1, "KEXP", "http://u1"⟩],
        ConnectOutcome.connectError, RaceOutcome.complete⟩).1 = 0 :=
  ⟨(streamHandler_not_found _ _ _ _ (by decide)).1,
   (streamHandler_not_found _ _ _ _ (by decide)).2.2.1⟩

/-- C7 counterexample: when `http.NewRequest` fails for the resolved
station URL, the handler sends a fifth pre-streaming failure — 500 with
body `{"error":"Failed to create stream request"}` — which is none of
the four status/body pairs the claim lists. -/
theorem preStream_failure_cx :
    (streamStationHandler ⟨"kexp", FetchOutcome.ok [⟨1, "KEXP", "://bad url"⟩],
        ConnectOutcome.requestError, RaceOutcome.complete⟩).2 =
      Response.json 500 [("error", "Failed to create stream request")] ∧
    [("error", "Failed to create stream request")] ∉
      ([[("error", "Station not found")],
        [("error", "Failed to fetch stations")],
        [("error", "Failed to parse stations")],
        [("error", "Failed to connect to stream")]] :
          List (List (String × String))) := by
  constructor
  · decide
  · decide

/-- C7 amended: every failing response produced before streaming begins
is exactly one of: 404 `{"error":"Station not found"}`, or 500 with
body `{"error":"Failed to fetch stations"}`,
`{"error":"Failed to parse stations"}`,
`{"error":"Failed to create stream request"}` or
`{"error":"Failed to connect to stream"}`. -/
theorem preStream_failure_taxonomy (env : StreamEnv) (status : Nat)
    (fields : List (String × String))
    (h : (streamStationHandler env).2 = Response.json status fields) :
    (status = 404 ∧ fields = [("error", "Station not found")]) ∨
    (status = 500 ∧
      (fields = [("error", "Failed to fetch stations")] ∨
       fields = [("error", "Failed to parse stations")] ∨
       fields = [("error", "Failed to create stream request")] ∨
       fields = [("error", "Failed to connect to stream")])) := by
  rcases env with ⟨name, fetch, connect, race⟩
  cases fetch with
  | fetchError =>
    simp only [streamStationHandler, Response.json.injEq] at h
    exact Or.inr ⟨h.1.symm, Or.inl h.2.symm⟩
  | parseError =>
    simp only [streamStationHandler, Response.json.injEq] at h
    exact Or.inr ⟨h.1.symm, Or.inr (Or.inl h.2.symm)⟩
  | ok stations =>
    rcases hr : resolveStation stations name with _ | s
    · simp only [streamStationHandler, hr, Response.json.injEq] at h
      exact Or.inl ⟨h.1.symm, h.2.symm⟩
    · cases connect with
      | requestError =>
        simp only [streamStationHandler, hr, Response.json.injEq] at h
        exact Or.inr ⟨h.1.symm, Or.inr (Or.inr (Or.inl h.2.symm))⟩
      | connectError =>
        simp only [streamStationHandler, hr, Response.json.injEq] at h
        exact Or.inr ⟨h.1.symm, Or.inr (Or.inr (Or.inr h.2.symm))⟩
      | ok resp src =>
        cases race <;> simp [streamStationHandler, hr] at h

/-- C7 witness: the taxonomy applied to a directory-fetch failure. -/
theorem preStream_failure_taxonomy_witness :
    ((500 : Nat) = 404 ∧
      [("error", "Failed to fetch stations")] = [("error", "Station not found")]) ∨
    ((500 : Nat) = 500 ∧
      ([("error", "Failed to fetch stations")] = [("error", "Failed to fetch stations")] ∨
       [("error", "Failed to fetch stations")] = [("error", "Failed to parse stations")] ∨
       [("error", "Failed to fetch stations")] = [("error", "Failed to create stream request")] ∨
       [("error", "Failed to fetch stations")] = [("error", "Failed to connect to stream")])) :=
  preStream_failure_taxonomy
    ⟨"kexp", FetchOutcome.fetchError, ConnectOutcome.connectError, RaceOutcome.complete⟩
    500 [("error", "Failed to fetch stations")] rfl

/-- C8 counterexample: against an empty fetched directory the slice of
`StationResponse` stays the nil slice (it only grows by `append`), and
`encoding/json` marshals a nil slice to `null` — the 200 body of
`GET /stations` for N = 0 is `null`, not the empty JSON array. -/
theorem stations_listing_cx :
    getStationsHandler (FetchOutcome.ok []) = StationsResponse.okList [] ∧
    renderStationList [] = "null" ∧
    "null" ≠ "[]" := by
  refine ⟨rfl, rfl, ?_⟩
  decide

/-- C8 amended: for every successfully fetched directory of N stations,
`GET /stations` answers 200 with exactly N projected objects, each
holding only the corresponding station's name, in fetch order; for
N ≥ 1 the body is the JSON array of those one-field objects, while for
N = 0 the body is JSON `null` (Go marshals the never-appended nil
slice to `null`). -/
theorem stations_listing_projection (stations : List RadioStation) :
    getStationsHandler (FetchOutcome.ok stations) =
      StationsResponse.okList (stations.map fun s => s.Name) ∧
    (stations.map fun s => s.Name).length = stations.length ∧
    (stations = [] →
      renderStationList (stations.map fun s => s.Name) = "null") ∧
    (stations ≠ [] →
      renderStationList (stations.map fun s => s.Name) =
        "[" ++ String.intercalate ","
          ((stations.map fun s => s.Name).map
            (fun n => "\x7b\"name\":\"" ++ n ++ "\"\x7d")) ++ "]") := by
  refine ⟨rfl, by simp, ?_, ?_⟩
  · intro h
    subst h
    rfl
  · intro h
    cases stations with
    | nil => exact absurd rfl h
    | cons s rest => rfl

/-- C8 witness: a one-station directory is projected to one one-field
object and rendered as a singleton JSON array. -/
theorem stations_listing_projection_witness :
    getStationsHandler (FetchOutcome.ok [⟨1, "KEXP", "http://u1"⟩]) =
      StationsResponse.okList ["KEXP"] ∧
    renderStationList ["KEXP"] =
      "[" ++ String.intercalate "," ["\x7b\"name\":\"KEXP\"\x7d"] ++ "]" :=
  ⟨(stations_listing_projection [⟨1, "KEXP", "http://u1"⟩]).1,
   (stations_listing_projection [⟨1, "KEXP", "http://u1"⟩]).2.2.2 (by simp)⟩

/-- C9: every `GET /stream/:station` request increments the per-station
request counter exactly once, labelled with the raw client-supplied
station name and with no other label, and this increment is the first
recorded event — before the directory fetch, hence before resolution
and regardless of the outcome. -/
theorem stationRequests_inc_once (env : StreamEnv) :
    (streamStationHandler env).1.take 2 =
      [MetricEvent.stationReqInc env.stationName, MetricEvent.dirFetch] ∧
    ∀ l, countStationReq l (streamStationHandler env).1 =
      if env.stationName = l then 1 else 0 := by
  rcases env with ⟨name, fetch, connect, race⟩
  cases fetch with
  | fetchError => constructor <;> simp [streamStationHandler, countStationReq]
  | parseError => constructor <;> simp [streamStationHandler, countStationReq]
  | ok stations =>
    rcases hr : resolveStation stations name with _ | s
    · constructor <;> simp [streamStationHandler, hr, countStationReq]
    · cases connect with
      | requestError =>
        constructor <;> simp [streamStationHandler, hr, countStationReq]
      | connectError =>
        constructor <;> simp [streamStationHandler, hr, countStationReq]
      | ok resp src =>
        cases race <;> constructor <;>
          simp [streamStationHandler, hr, countStationReq]

/-- C10: the stream-error counter is untouched on the directory-fetch
failure, the directory-parse failure and the 404 not-found outcome;
whenever it is incremented at all, the request failed at upstream
request creation, failed at upstream connect, or the error case of the
select fired — which, in a well-formed run, means the copy task sent
exactly that I/O error on `errChan`. -/
theorem streamErrors_frame (env : StreamEnv) (hWF : env.WF) :
    ((env.fetch = FetchOutcome.fetchError ∨ env.fetch = FetchOutcome.parseError ∨
      ∃ stations, env.fetch = FetchOutcome.ok stations ∧
        resolveStation stations env.stationName = none) →
      countStreamErr (streamStationHandler env).1 = 0) ∧
    (countStreamErr (streamStationHandler env).1 ≠ 0 →
      env.connect = ConnectOutcome.requestError ∨
      env.connect = ConnectOutcome.connectError ∨
      ∃ e resp src, env.race = RaceOutcome.copyError e ∧
        env.connect = ConnectOutcome.ok resp src ∧
        (runCopyTask src).errSent = some e) := by
  rcases env with ⟨name, fetch, connect, race⟩
  cases fetch with
  | fetchError =>
    exact ⟨fun _ => by simp [streamStationHandler, countStreamErr],
      fun hne => absurd (by simp [streamStationHandler, countStreamErr]) hne⟩
  | parseError =>
    exact ⟨fun _ => by simp [streamStationHandler, countStreamErr],
      fun hne => absurd (by simp [streamStationHandler, countStreamErr]) hne⟩
  | ok stations =>
    rcases hr : resolveStation stations name with _ | s
    · exact ⟨fun _ => by simp [streamStationHandler, hr, countStreamErr],
        fun hne => absurd (by simp [streamStationHandler, hr, countStreamErr]) hne⟩
    · refine ⟨?_, ?_⟩
      · rintro (h | h | ⟨st, hst, hnone⟩)
        · exact absurd h (by simp)
        · exact absurd h (by simp)
        · rw [FetchOutcome.ok.injEq] at hst
          rw [hst] at hr
          rw [hr] at hnone
          exact absurd hnone (by simp)
      · intro hne
        cases connect with
        | requestError => exact Or.inl rfl
        | connectError => exact Or.inr (Or.inl rfl)
        | ok resp src =>
          cases race with
          | copyError e =>
            rcases hWF e rfl with ⟨resp', src', hconn, herr⟩
            have hsrc : src' = src := by
              injection hconn with _ h2
              exact h2.symm
            refine Or.inr (Or.inr ⟨e, resp, src, rfl, rfl, ?_⟩)
            rw [← hsrc]
            simp [runCopyTask, herr]
          | clientCancel =>
            exact absurd (by simp [streamStationHandler, hr, countStreamErr]) hne
          | complete =>
            exact absurd (by simp [streamStationHandler, hr, countStreamErr]) hne

/-- C10 witness: a run failing at upstream connect increments the
counter and is classified as a connect failure; a run failing at the
directory fetch leaves the counter untouched. -/
theorem streamErrors_frame_witness :
    countStreamErr (streamStationHandler
      ⟨"kexp", FetchOutcome.fetchError, ConnectOutcome.connectError,
       RaceOutcome.complete⟩).1 = 0 :=
  (streamErrors_frame
      ⟨"kexp", FetchOutcome.fetchError, ConnectOutcome.connectError,
       RaceOutcome.complete⟩
      (fun _e h => RaceOutcome.noConfusion h)).1
    (Or.inl rfl)

end BxRadio
